import Mathlib

/-!
Shallow embedding of `blockwatcher_runner.py` (class BlockWatcherRunner), the
thin orchestrator that runs an external block-indexing binary: configuration
loading from the file or relational backend, RPC-endpoint normalization,
minimal-monitor synthesis, trigger resolution and merging, the progress
tracker statistics, and the supervision / shutdown control flow.

Dynamic Python values (JSON-like dicts) are embedded as the inductive `JVal`;
Python dict objects are association lists with insertion-order update
semantics.  Database access is embedded by passing the table contents (or
`none` for a connection/query failure) as an explicit argument; the
filesystem is embedded by passing the directory contents as a list.
-/

namespace BlockwatcherRunner

/-- A JSON-like dynamic value, as the Python code manipulates them. -/
inductive JVal where
  | str : String → JVal
  | int : Int → JVal
  | bool : Bool → JVal
  | null : JVal
  | arr : List JVal → JVal
  | obj : List (String × JVal) → JVal

/-- Lookup of a key in an association list (Python `d[k]` / `d.get(k)`). -/
def alistGet {α : Type} : List (String × α) → String → Option α
  | [], _ => none
  | (k, v) :: rest, key => if k = key then some v else alistGet rest key

/-- Python dict assignment `d[k] = v`: replace the value at the first (and,
for a dict, only) occurrence of the key, keeping its position; append the
new binding at the end when the key is absent. -/
def alistUpdate {α : Type} : List (String × α) → String → α → List (String × α)
  | [], k, v => [(k, v)]
  | (k0, v0) :: rest, k, v =>
      if k0 = k then (k, v) :: rest else (k0, v0) :: alistUpdate rest k v

/-- Python `d.update(src)`: fold assignments over the source bindings. -/
def dictUpdate (m src : List (String × JVal)) : List (String × JVal) :=
  src.foldl (fun acc p => alistUpdate acc p.1 p.2) m

/-- Whether an association list has a binding for `k` (Python `k in d`). -/
def hasKey {α : Type} (m : List (String × α)) (k : String) : Bool :=
  (alistGet m k).isSome

/-- Python `d.get(k)` on a dict value (`none` when the value is not a dict
or the key is absent). -/
def JVal.get : JVal → String → Option JVal
  | .obj kvs, key => alistGet kvs key
  | _, _ => none

/-- Python `d[k] = v` on a dict value (anything else is left unchanged; the
code only ever applies this to dicts). -/
def setKey (j : JVal) (k : String) (v : JVal) : JVal :=
  match j with
  | .obj kvs => .obj (alistUpdate kvs k v)
  | other => other

/-! ## RPC-endpoint normalization
(`load_network_configs_from_db`, lines 104-141 of the source) -/

/-- The canonical endpoint shape the formatting loop builds in every branch:
an object with key type_ mapped to the string rpc, key url mapped to an
object with type plain and the value, and key weight. -/
def canonicalRpc (v w : JVal) : JVal :=
  .obj [("type_", .str "rpc"),
        ("url", .obj [("type", .str "plain"), ("value", v)]),
        ("weight", w)]

/-- `rpc.get(weight, 100)` on the endpoint dict entries. -/
def rpcWeight (kvs : List (String × JVal)) : JVal :=
  (alistGet kvs "weight").getD (.int 100)

/-- One iteration of the formatting loop over `config[rpc_urls]`:
  * a dict with an url key whose value is a dict with a value key keeps
    that inner value and `rpc.get(weight, 100)`;
  * a dict with an url key holding anything else keeps the url field
    itself as the value, and `rpc.get(weight, 100)`;
  * anything else (a plain string, or a dict without an url key) becomes
    the value itself, with weight 100. -/
def formatRpcUrl (rpc : JVal) : JVal :=
  match rpc with
  | .obj kvs =>
    match alistGet kvs "url" with
    | some urlData =>
      match urlData with
      | .obj ukvs =>
        match alistGet ukvs "value" with
        | some v => canonicalRpc v (rpcWeight kvs)
        | none => canonicalRpc urlData (rpcWeight kvs)
      | _ => canonicalRpc urlData (rpcWeight kvs)
    | none => canonicalRpc (.obj kvs) (.int 100)
  | _ => canonicalRpc rpc (.int 100)

/-- The loop over the whole rpc_urls column. -/
def formatRpcUrls (rpcs : List JVal) : List JVal :=
  rpcs.map formatRpcUrl

/-! ## Network loading
(`load_network_configs_from_db` lines 62-162,
`load_network_configs_from_files` lines 164-196) -/

/-- A row of the `networks` table, with the columns the code reads.
Database NULLs in the loosely-typed columns are `JVal.null`. -/
structure NetworkRow where
  tenant_id : String
  active : Bool
  deleted_at : Option Nat
  name : String
  slug : String
  network_type : String
  chain_id : JVal
  network_passphrase : JVal
  rpc_urls : List JVal
  block_time_ms : JVal
  confirmation_blocks : JVal
  cron_schedule : JVal
  max_past_blocks : JVal
  store_blocks : Bool

/-- The fixed part of the WHERE clause: tenant match, `active = true`,
`deleted_at IS NULL`. -/
def isActiveRow (tenant : String) (r : NetworkRow) : Bool :=
  r.tenant_id == tenant && r.active && r.deleted_at.isNone

/-- The full WHERE clause: the fixed part, plus `slug IN (...)` when a
non-empty selection was requested. -/
def rowMatchesQuery (tenant : String) (selection : List String) (r : NetworkRow) : Bool :=
  isActiveRow tenant r && (selection.isEmpty || selection.contains r.slug)

/-- Conversion of a database row to the config dict (lines 90-141), with
the rpc_urls column normalized when non-empty and
`store_blocks := row[store_blocks] or self.store_blocks`. -/
def rowToConfig (storeBlocksFlag : Bool) (r : NetworkRow) : JVal :=
  .obj [("name", .str r.name),
        ("slug", .str r.slug),
        ("network_type", .str r.network_type),
        ("chain_id", r.chain_id),
        ("network_passphrase", r.network_passphrase),
        ("rpc_urls", .arr (if r.rpc_urls.isEmpty then r.rpc_urls
                           else formatRpcUrls r.rpc_urls)),
        ("block_time_ms", r.block_time_ms),
        ("confirmation_blocks", r.confirmation_blocks),
        ("cron_schedule", r.cron_schedule),
        ("max_past_blocks", r.max_past_blocks),
        ("store_blocks", .bool (r.store_blocks || storeBlocksFlag))]

/-- The failure mode of the loaders: `sys.exit(code)` (the spec calls this
NotFoundError at the contract level). -/
inductive LoadFailure where
  | processExit (code : Nat)

/-- `networks[row[slug]] = config` inside the row loop. -/
def dbInsertStep (storeBlocksFlag : Bool) (acc : List (String × JVal)) (r : NetworkRow) :
    List (String × JVal) :=
  alistUpdate acc r.slug (rowToConfig storeBlocksFlag r)

/-- `load_network_configs_from_db`: the db argument is `none` when the
connection or query raises (then the code prints and exits 1), otherwise
the full contents of the `networks` table.  An empty result set is also a
fatal exit 1. -/
def loadNetworkConfigsFromDb (tenant : String) (selection : List String)
    (storeBlocksFlag : Bool) (db : Option (List NetworkRow)) :
    Except LoadFailure (List (String × JVal)) :=
  match db with
  | none => .error (.processExit 1)
  | some table =>
    let rows := table.filter (rowMatchesQuery tenant selection)
    let networks := rows.foldl (dbInsertStep storeBlocksFlag) []
    if networks.isEmpty then .error (.processExit 1) else .ok networks

/-- One JSON file of the `config/networks` directory: its stem and the
result of `json.load` (`none` when parsing raised and the file is skipped
with a warning). -/
structure NetworkFile where
  stem : String
  parsed : Option JVal

/-- `config.get(slug, config_file.stem)`: the slug field when present (the
model assumes slug fields, when present, are strings), else the stem. -/
def fileSlug (stem : String) (cfg : JVal) : String :=
  match cfg.get "slug" with
  | some (.str s) => s
  | _ => stem

/-- The body of the file loop: skip files that failed to parse; skip slugs
outside a non-empty requested selection; otherwise `networks[slug] = config`. -/
def fileInsertStep (selection : List String) (acc : List (String × JVal))
    (f : NetworkFile) : List (String × JVal) :=
  match f.parsed with
  | none => acc
  | some cfg =>
      let slug := fileSlug f.stem cfg
      if !selection.isEmpty && !selection.contains slug then acc
      else alistUpdate acc slug cfg

/-- `load_network_configs_from_files`: an empty result is a fatal exit 1. -/
def loadNetworkConfigsFromFiles (selection : List String) (files : List NetworkFile) :
    Except LoadFailure (List (String × JVal)) :=
  let networks := files.foldl (fileInsertStep selection) []
  if networks.isEmpty then .error (.processExit 1) else .ok networks

/-- `load_network_configs`: dispatch on `use_database`; the file backend is
never consulted when the database backend is selected. -/
def loadNetworkConfigs (useDatabase : Bool) (tenant : String) (selection : List String)
    (storeBlocksFlag : Bool) (db : Option (List NetworkRow)) (files : List NetworkFile) :
    Except LoadFailure (List (String × JVal)) :=
  if useDatabase then loadNetworkConfigsFromDb tenant selection storeBlocksFlag db
  else loadNetworkConfigsFromFiles selection files

/-! ## Monitor and trigger loading from the database
(`load_monitor_and_trigger_configs_from_db`, lines 198-355) -/

/-- A row of the `monitors` table, with the columns the code reads. -/
structure MonitorRow where
  tenant_id : String
  active : Bool
  paused : Bool
  deleted_at : Option Nat
  slug : String
  networks : JVal
  addresses : JVal
  match_functions : JVal
  match_events : JVal
  match_transactions : JVal
  trigger_conditions : JVal
  triggers : List JVal

/-- WHERE clause of the monitor query: tenant, `active = true`,
`paused = false`, `deleted_at IS NULL`. -/
def isActiveMonitorRow (tenant : String) (r : MonitorRow) : Bool :=
  r.tenant_id == tenant && r.active && !r.paused && r.deleted_at.isNone

/-- Conversion of a monitor row to the config dict (lines 219-231); the
slug is used as the name. -/
def monitorRowToConfig (r : MonitorRow) : JVal :=
  .obj [("name", .str r.slug),
        ("paused", .bool r.paused),
        ("networks", r.networks),
        ("addresses", r.addresses),
        ("match_conditions", .obj [("functions", r.match_functions),
                                   ("events", r.match_events),
                                   ("transactions", r.match_transactions)]),
        ("trigger_conditions", r.trigger_conditions),
        ("triggers", .arr r.triggers)]

/-- A trigger reference inside `row[triggers]`: a dict with an id key
yields the id, a plain string yields the slug, anything else is ignored
(the model assumes id values, when present, are strings, as they are
`id::text` values). -/
def refKey : JVal → Option String
  | .obj kvs =>
      match alistGet kvs "id" with
      | some (.str i) => some i
      | _ => none
  | .str s => some s
  | _ => none

/-- The reference-collection loop: an ordered working set, seeded with a
`none` placeholder per reference not already present. -/
def collectTriggerRefs (monitors : List MonitorRow) : List (String × Option JVal) :=
  monitors.foldl (fun acc m =>
    m.triggers.foldl (fun acc2 ref =>
      match refKey ref with
      | some k => if hasKey acc2 k then acc2 else acc2 ++ [(k, none)]
      | none => acc2) acc) []

/-- A row of the `triggers` table, with the columns the code reads
(`id` is the `id::text` rendering). -/
structure TriggerRow where
  tenant_id : String
  active : Bool
  deleted_at : Option Nat
  id : String
  name : String
  slug : String
  trigger_type : String

/-- WHERE clause of the trigger query: slug or textual id among the
collected references, tenant, `active = true`, `deleted_at IS NULL`. -/
def triggerRowMatches (tenant : String) (refs : List String) (r : TriggerRow) : Bool :=
  (refs.contains r.slug || refs.contains r.id)
    && r.tenant_id == tenant && r.active && r.deleted_at.isNone

/-- A row of the `email_triggers` detail table. -/
structure EmailTriggerRow where
  trigger_id : String
  host : JVal
  port : JVal
  username_value : JVal
  password_value : JVal
  sender : JVal
  recipients : JVal
  message_title : JVal
  message_body : JVal

/-- A row of the `webhook_triggers` detail table; `headers` is `none` for a
database NULL (the code substitutes an empty dict), `secret_value` is
`none` when NULL or empty (the code substitutes a JSON null secret). -/
structure WebhookTriggerRow where
  trigger_id : String
  url_value : JVal
  method : JVal
  headers : Option JVal
  secret_value : Option JVal
  message_title : JVal
  message_body : JVal

/-- `SELECT * FROM email_triggers WHERE trigger_id = ...` with `fetchone`. -/
def findEmailDetail (emails : List EmailTriggerRow) (tid : String) : Option EmailTriggerRow :=
  emails.find? (fun e => e.trigger_id == tid)

/-- `SELECT * FROM webhook_triggers WHERE trigger_id = ...` with `fetchone`. -/
def findWebhookDetail (webhooks : List WebhookTriggerRow) (tid : String) :
    Option WebhookTriggerRow :=
  webhooks.find? (fun w => w.trigger_id == tid)

/-- The slug-keyed email trigger definition (lines 282-305). -/
def emailTriggerBody (r : TriggerRow) (e : EmailTriggerRow) : JVal :=
  .obj [("name", .str r.name),
        ("trigger_type", .str "email"),
        ("config", .obj
          [("host", e.host),
           ("port", e.port),
           ("username", .obj [("type", .str "plain"), ("value", e.username_value)]),
           ("password", .obj [("type", .str "plain"), ("value", e.password_value)]),
           ("sender", e.sender),
           ("recipients", e.recipients),
           ("message", .obj [("title", e.message_title), ("body", e.message_body)])])]

/-- The slug-keyed webhook trigger definition (lines 314-335). -/
def webhookTriggerBody (r : TriggerRow) (w : WebhookTriggerRow) : JVal :=
  .obj [("name", .str r.name),
        ("trigger_type", .str "webhook"),
        ("config", .obj
          [("url", .obj [("type", .str "plain"), ("value", w.url_value)]),
           ("method", w.method),
           ("headers", w.headers.getD (.obj [])),
           ("secret", match w.secret_value with
                      | some s => .obj [("type", .str "plain"), ("value", s)]
                      | none => .null),
           ("message", .obj [("title", w.message_title), ("body", w.message_body)])])]

/-- The flat metadata record first built for every resolved trigger row
(lines 267-272). -/
def flatTriggerRecord (r : TriggerRow) : JVal :=
  .obj [("id", .str r.id),
        ("name", .str r.name),
        ("slug", .str r.slug),
        ("type", .str r.trigger_type)]

/-- Resolution of one trigger row: the flat metadata record is replaced by
a slug-keyed definition only when the type is email or webhook AND the
type-specific detail row exists; otherwise it stays flat. -/
def resolveTriggerConfig (r : TriggerRow) (emails : List EmailTriggerRow)
    (webhooks : List WebhookTriggerRow) : JVal :=
  if r.trigger_type = "email" then
    match findEmailDetail emails r.id with
    | some e => .obj [(r.slug, emailTriggerBody r e)]
    | none => flatTriggerRecord r
  else if r.trigger_type = "webhook" then
    match findWebhookDetail webhooks r.id with
    | some w => .obj [(r.slug, webhookTriggerBody r w)]
    | none => flatTriggerRecord r
  else flatTriggerRecord r

/-- The database contents the monitor/trigger loader consults. -/
structure DbTables where
  monitors : List MonitorRow
  triggers : List TriggerRow
  emailTriggers : List EmailTriggerRow
  webhookTriggers : List WebhookTriggerRow

/-- `load_monitor_and_trigger_configs_from_db`: returns the monitor dicts
and the trigger values, plus a flag recording whether the failure message
was printed.  On a backend failure (db argument `none`) the function
catches the exception, prints the message and RETURNS `([], [])` to the
caller — it does not exit the process. -/
def loadMonitorAndTriggerConfigsFromDb (tenant : String) (db : Option DbTables) :
    (List JVal × List JVal) × Bool :=
  match db with
  | none => (([], []), true)
  | some t =>
    let monitorRows := t.monitors.filter (isActiveMonitorRow tenant)
    let monitors := monitorRows.map monitorRowToConfig
    let tmap0 := collectTriggerRefs monitorRows
    let tmap :=
      if tmap0.isEmpty then tmap0
      else
        let refs := tmap0.map (fun p => p.1)
        let rows := t.triggers.filter (triggerRowMatches tenant refs)
        rows.foldl (fun acc r =>
          let cfg := resolveTriggerConfig r t.emailTriggers t.webhookTriggers
          alistUpdate (alistUpdate acc r.id (some cfg)) r.slug (some cfg)) tmap0
    let triggers := tmap.filterMap (fun p => p.2)
    ((monitors, triggers), false)

/-! ## Config synthesis
(`create_minimal_configs` lines 357-439,
`_create_minimal_monitor_configs` lines 441-493) -/

/-- The per-network clone of `create_minimal_configs` (lines 388-391):
copy the dict, then set store_blocks to true only when the runner was
started with the store-blocks override. -/
def cloneNetworkConfig (storeBlocksFlag : Bool) (cfg : JVal) : JVal :=
  if storeBlocksFlag then setKey cfg "store_blocks" (.bool true) else cfg

/-- `cfg.get(network_type) == t` as the comprehension filters test it
(a missing or non-string field compares unequal to the string). -/
def isNetworkType (cfg : JVal) (t : String) : Bool :=
  match cfg.get "network_type" with
  | some (.str s) => s == t
  | _ => false

/-- The slugs of the networks of one type, in order (the evm_networks and
stellar_networks comprehensions). -/
def typeSlugs (networks : List (String × JVal)) (t : String) : List String :=
  (networks.filter (fun p => isNetworkType p.2 t)).map (fun p => p.1)

/-- The conventional EVM zero/burn address watched by the default monitor. -/
def evmZeroAddress : String := "0x0000000000000000000000000000000000000000"

/-- The conventional Stellar zero/burn address watched by the default monitor. -/
def stellarZeroAddress : String :=
  "GAAAAAAAAAAAAAAAAAAAAAAAAAAAAAAAAAAAAAAAAAAAAAAAAAAAAWHF"

/-- The shared match conditions of both default monitors: no function or
event filters, successful transactions only, no expression. -/
def successOnlyMatchConditions : JVal :=
  .obj [("functions", .arr []),
        ("events", .arr []),
        ("transactions", .arr [.obj [("status", .str "Success"),
                                     ("expression", .null)]])]

/-- The minimal EVM default monitor (lines 450-467). -/
def evmMinimalMonitor (slugs : List String) : JVal :=
  .obj [("name", .str "blockwatcher_evm"),
        ("paused", .bool false),
        ("networks", .arr (slugs.map JVal.str)),
        ("addresses", .arr [.obj [("address", .str evmZeroAddress)]]),
        ("match_conditions", successOnlyMatchConditions),
        ("trigger_conditions", .arr []),
        ("triggers", .arr [])]

/-- The minimal Stellar default monitor (lines 473-490). -/
def stellarMinimalMonitor (slugs : List String) : JVal :=
  .obj [("name", .str "blockwatcher_stellar"),
        ("paused", .bool false),
        ("networks", .arr (slugs.map JVal.str)),
        ("addresses", .arr [.obj [("address", .str stellarZeroAddress)]]),
        ("match_conditions", successOnlyMatchConditions),
        ("trigger_conditions", .arr []),
        ("triggers", .arr [])]

/-- `_create_minimal_monitor_configs`: the monitor files written (file name
stem paired with contents).  One file per handled family with at least one
network: EVM, then Stellar.  Network types other than these two produce
nothing. -/
def createMinimalMonitorConfigs (networks : List (String × JVal)) :
    List (String × JVal) :=
  (if (typeSlugs networks "EVM").isEmpty then []
   else [("blockwatcher_evm", evmMinimalMonitor (typeSlugs networks "EVM"))])
  ++
  (if (typeSlugs networks "Stellar").isEmpty then []
   else [("blockwatcher_stellar", stellarMinimalMonitor (typeSlugs networks "Stellar"))])

/-- The network types present, as the distinct network_type strings in
first-appearance order. -/
def distinctNetworkTypes (networks : List (String × JVal)) : List String :=
  (networks.filterMap (fun p =>
    match p.2.get "network_type" with
    | some (.str s) => some s
    | _ => none)).foldl (fun acc s => if s ∈ acc then acc else acc ++ [s]) []

/-- The merged single trigger file: `all_triggers = dict()` then
`all_triggers.update(trigger)` for every trigger value that is a dict
(lines 414-419). -/
def mergeTriggers (triggers : List JVal) : List (String × JVal) :=
  triggers.foldl (fun acc t =>
    match t with
    | .obj kvs => dictUpdate acc kvs
    | _ => acc) []

/-! ## Progress tracker
(`monitor_blocks`, lines 536-598) -/

/-- The per-network statistics record kept in `self.stats`. -/
structure NetworkStats where
  first_block : Int
  last_block : Int
  blocks_processed : Int
  last_update : Nat
deriving DecidableEq, Repr

/-- One successfully parsed read of a progress-marker file (lines 552-566):
a first read seeds the record with zero blocks processed; a later read is
applied only when the new block number strictly exceeds the recorded
last_block, and then sets
`blocks_processed := block_num - first_block`. -/
def applyRead (m : List (String × NetworkStats)) (network : String)
    (blockNum : Int) (now : Nat) : List (String × NetworkStats) :=
  match alistGet m network with
  | none => m ++ [(network, { first_block := blockNum, last_block := blockNum,
                              blocks_processed := 0, last_update := now })]
  | some st =>
      if st.last_block < blockNum then
        alistUpdate m network { st with last_block := blockNum,
                                        blocks_processed := blockNum - st.first_block,
                                        last_update := now }
      else m

/-- A sequence of marker reads, each a network name, a block number and a
read time, applied in order. -/
def applyReads (m : List (String × NetworkStats))
    (reads : List (String × Int × Nat)) : List (String × NetworkStats) :=
  reads.foldl (fun acc r => applyRead acc r.1 r.2.1 r.2.2) m

/-- The statistics invariant of the claim. -/
def statsInv (m : List (String × NetworkStats)) : Prop :=
  ∀ p ∈ m, p.2.blocks_processed = p.2.last_block - p.2.first_block

/-! ## Supervision and shutdown
(`run` lines 600-664, `shutdown` lines 666-692) -/

/-- The run states of the spec state machine. -/
inductive RunState where
  | Idle
  | Starting
  | Running
  | Stopping
  | Stopped
  | Killed
deriving DecidableEq, Repr

/-- The child process, characterized by how many seconds after the
graceful-termination request it takes to exit, and its exit code. -/
structure ChildProcess where
  termDelaySecs : Nat
  exitCode : Int
deriving DecidableEq, Repr

/-- The `self.process.wait(timeout=10)` window of `shutdown`. -/
def shutdownTimeoutSecs : Nat := 10

/-- What `shutdown` produced: the state the child ended in, whether
`kill()` was used, and whether the final statistics block was printed. -/
structure ShutdownResult where
  finalState : RunState
  forcedKill : Bool
  reportPrinted : Bool
deriving DecidableEq, Repr

/-- `shutdown`: clear the run flag; if a child exists, `terminate()` it and
wait up to the timeout — a child that exits within it is reported as a
clean exit (Stopped), otherwise it is `kill()`-ed (Killed).  Afterwards the
final statistics are printed exactly when `self.stats` is non-empty. -/
def shutdownRun (process : Option ChildProcess)
    (stats : List (String × NetworkStats)) : ShutdownResult :=
  match process with
  | none => { finalState := RunState.Stopping, forcedKill := false,
              reportPrinted := !stats.isEmpty }
  | some c =>
      if c.termDelaySecs ≤ shutdownTimeoutSecs then
        { finalState := RunState.Stopped, forcedKill := false,
          reportPrinted := !stats.isEmpty }
      else
        { finalState := RunState.Killed, forcedKill := true,
          reportPrinted := !stats.isEmpty }

/-- How the supervision phase of `run` ends: the child exits on its own
(`process.wait()` returns its code), a KeyboardInterrupt arrives, or some
other exception is raised. -/
inductive RunEnding where
  | childExited (exitCode : Int)
  | interrupted (child : Option ChildProcess)
  | crashed (child : Option ChildProcess)

/-- The observable outcome of `run`: the runner process exit status, the
child exit code `wait()` observed (the code never reads it back), whether
`shutdown` ran, and whether the final statistics were printed. -/
structure RunResult where
  orchestratorExit : Nat
  childExitCode : Option Int
  shutdownCalled : Bool
  reportPrinted : Bool
deriving DecidableEq, Repr

/-- The tail of `run` (lines 628-664): a child that exits on its own makes
`wait()` return and `run` fall through to `finally: cleanup()` — `shutdown`
is never called and the interpreter exits 0, whatever the child code was.
A KeyboardInterrupt calls `shutdown` and also ends with exit status 0.
Any other exception calls `shutdown` and then `sys.exit(1)`. -/
def runSupervision (ending : RunEnding)
    (stats : List (String × NetworkStats)) : RunResult :=
  match ending with
  | .childExited code =>
      { orchestratorExit := 0, childExitCode := some code,
        shutdownCalled := false, reportPrinted := false }
  | .interrupted child =>
      { orchestratorExit := 0, childExitCode := none,
        shutdownCalled := true,
        reportPrinted := (shutdownRun child stats).reportPrinted }
  | .crashed child =>
      { orchestratorExit := 1, childExitCode := none,
        shutdownCalled := true,
        reportPrinted := (shutdownRun child stats).reportPrinted }

/-! ## Concrete fixtures used to evaluate the development on closed inputs -/

/-- An active EVM network row of the demo tenant. -/
def demoNetworkRow : NetworkRow :=
  { tenant_id := "t", active := true, deleted_at := none,
    name := "Ethereum Mainnet", slug := "eth", network_type := "EVM",
    chain_id := .int 1, network_passphrase := .null,
    rpc_urls := [.str "https://rpc.example.org"],
    block_time_ms := .int 12000, confirmation_blocks := .int 12,
    cron_schedule := .null, max_past_blocks := .null, store_blocks := false }

/-- The same row, soft-deactivated. -/
def demoInactiveRow : NetworkRow :=
  { demoNetworkRow with active := false }

/-- A well-formed network config file. -/
def demoNetworkFile : NetworkFile :=
  { stem := "eth", parsed := some (.obj [("slug", .str "eth")]) }

/-- A file `json.load` failed on. -/
def demoBadFile : NetworkFile :=
  { stem := "broken", parsed := none }

/-- The statistics record reached by reading markers 5 then 9. -/
def demoStats : NetworkStats :=
  { first_block := 5, last_block := 9, blocks_processed := 4, last_update := 2 }

/-- A one-network EVM input to the synthesizer. -/
def demoEvmNetworks : List (String × JVal) :=
  [("eth-main", JVal.obj [("network_type", JVal.str "EVM")])]

/-- A mixed input with an EVM network and a network of an unhandled type. -/
def demoMixedNetworks : List (String × JVal) :=
  [("eth-main", JVal.obj [("network_type", JVal.str "EVM")]),
   ("solana-main", JVal.obj [("network_type", JVal.str "Solana")])]

/-- A trigger row whose type has no detail table (neither email nor webhook). -/
def demoTriggerRow : TriggerRow :=
  { tenant_id := "t", active := true, deleted_at := none,
    id := "42", name := "My Trigger", slug := "my-trigger",
    trigger_type := "slack" }

/-! ## Association-list lemmas -/

lemma alistGet_mem {α : Type} (m : List (String × α)) (k : String) (v : α)
    (h : alistGet m k = some v) : (k, v) ∈ m := by
  induction m with
  | nil => simp [alistGet] at h
  | cons hd tl ih =>
    obtain ⟨k0, v0⟩ := hd
    by_cases hk : k0 = k
    · subst hk
      simp [alistGet] at h
      subst h
      exact List.mem_cons_self _ _
    · simp [alistGet, hk] at h
      exact List.mem_cons_of_mem _ (ih h)

lemma alistUpdate_mem {α : Type} (m : List (String × α)) (k : String) (v : α)
    (p : String × α) (hp : p ∈ alistUpdate m k v) : p = (k, v) ∨ p ∈ m := by
  induction m with
  | nil =>
    simp [alistUpdate] at hp
    exact Or.inl hp
  | cons hd tl ih =>
    obtain ⟨k0, v0⟩ := hd
    by_cases hk : k0 = k
    · simp [alistUpdate, hk] at hp
      rcases hp with hp | hp
      · exact Or.inl hp
      · exact Or.inr (List.mem_cons_of_mem _ hp)
    · simp [alistUpdate, hk] at hp
      rcases hp with hp | hp
      · exact Or.inr (by simp [hp])
      · rcases ih hp with h | h
        · exact Or.inl h
        · exact Or.inr (List.mem_cons_of_mem _ h)

lemma alistGet_update_self {α : Type} (m : List (String × α)) (k : String) (v : α) :
    alistGet (alistUpdate m k v) k = some v := by
  induction m with
  | nil => simp [alistUpdate, alistGet]
  | cons hd tl ih =>
    obtain ⟨k0, v0⟩ := hd
    by_cases hk : k0 = k
    · simp [alistUpdate, alistGet, hk]
    · simp [alistUpdate, alistGet, hk, ih]

lemma alistGet_update_ne {α : Type} (m : List (String × α)) (k k2 : String) (v : α)
    (h : k2 ≠ k) : alistGet (alistUpdate m k v) k2 = alistGet m k2 := by
  have h2 : k ≠ k2 := Ne.symm h
  induction m with
  | nil => simp [alistUpdate, alistGet, h2]
  | cons hd tl ih =>
    obtain ⟨k0, v0⟩ := hd
    by_cases hk : k0 = k
    · subst hk
      simp [alistUpdate, alistGet, h2]
    · simp only [alistUpdate, hk, if_false, alistGet]
      by_cases hk2 : k0 = k2
      · simp [hk2]
      · simp [hk2, ih]

lemma hasKey_update {α : Type} (m : List (String × α)) (k k2 : String) (v : α) :
    hasKey (alistUpdate m k v) k2 = true ↔ k2 = k ∨ hasKey m k2 = true := by
  by_cases hk : k2 = k
  · subst hk
    simp [hasKey, alistGet_update_self]
  · simp [hasKey, alistGet_update_ne m k k2 v hk, hk]

lemma list_ne_nil_isEmpty {α : Type} (l : List α) (h : l ≠ []) : l.isEmpty = false := by
  cases l with
  | nil => exact absurd rfl h
  | cons a t => rfl

/-! ## Progress-tracker lemmas -/

lemma applyRead_inv (m : List (String × NetworkStats)) (n : String) (b : Int) (t : Nat)
    (hinv : statsInv m) : statsInv (applyRead m n b t) := by
  intro p hp
  unfold applyRead at hp
  cases h : alistGet m n with
  | none =>
    simp only [h] at hp
    rcases List.mem_append.mp hp with hmem | hmem
    · exact hinv p hmem
    · simp only [List.mem_singleton] at hmem
      subst hmem
      simp
  | some st =>
    simp only [h] at hp
    by_cases hc : st.last_block < b
    · rw [if_pos hc] at hp
      rcases alistUpdate_mem _ _ _ _ hp with heq | hmem
      · subst heq
        simp
      · exact hinv p hmem
    · rw [if_neg hc] at hp
      exact hinv p hp

lemma applyReads_inv (reads : List (String × Int × Nat))
    (m : List (String × NetworkStats)) (hinv : statsInv m) :
    statsInv (applyReads m reads) := by
  induction reads generalizing m with
  | nil => exact hinv
  | cons r rest ih => exact ih _ (applyRead_inv _ _ _ _ hinv)

/-- C1: for every network tracked by the ProgressTracker, after any sequence
of marker reads, the recorded blocks_processed equals last_block minus
first_block; and a read whose block number does not strictly exceed the
previously recorded last_block (in particular an out-of-order lower read)
leaves the whole statistics map, hence the first_block of that network,
last_block and blocks_processed, unchanged. -/
theorem c1_progress_tracker_stats :
    (∀ (reads : List (String × Int × Nat)) (n : String) (st : NetworkStats),
        alistGet (applyReads [] reads) n = some st →
        st.blocks_processed = st.last_block - st.first_block) ∧
    (∀ (m : List (String × NetworkStats)) (n : String) (b : Int) (t : Nat)
        (st : NetworkStats),
        alistGet m n = some st → b ≤ st.last_block → applyRead m n b t = m) := by
  constructor
  · intro reads n st h
    have hinv : statsInv (applyReads [] reads) :=
      applyReads_inv reads [] (by intro p hp; simp at hp)
    exact hinv _ (alistGet_mem _ _ _ h)
  · intro m n b t st h hle
    unfold applyRead
    simp only [h]
    rw [if_neg (not_lt.mpr hle)]

/-- Witness for C1: after reads 5 then 9 the record is
first 5 / last 9 / processed 4, and a later lower read (7) changes nothing. -/
theorem c1_progress_tracker_stats_witness :
    (demoStats.blocks_processed = demoStats.last_block - demoStats.first_block) ∧
    applyRead [("eth", demoStats)] "eth" 7 3 = [("eth", demoStats)] :=
  ⟨c1_progress_tracker_stats.1 [("eth", 5, 0), ("eth", 9, 2)] "eth" demoStats (by decide),
   c1_progress_tracker_stats.2 [("eth", demoStats)] "eth" 7 3 demoStats
      (by decide) (by decide)⟩

/-! ## RPC-normalization lemmas -/

lemma formatRpcUrl_canonical (v w : JVal) :
    formatRpcUrl (canonicalRpc v w) = canonicalRpc v w := rfl

lemma formatRpcUrl_shape (x : JVal) : ∃ v w, formatRpcUrl x = canonicalRpc v w := by
  cases x with
  | obj kvs =>
    cases hurl : alistGet kvs "url" with
    | none => exact ⟨.obj kvs, .int 100, by simp [formatRpcUrl, hurl]⟩
    | some urlData =>
      cases urlData with
      | obj ukvs =>
        cases hv : alistGet ukvs "value" with
        | none => exact ⟨.obj ukvs, rpcWeight kvs, by simp [formatRpcUrl, hurl, hv]⟩
        | some v => exact ⟨v, rpcWeight kvs, by simp [formatRpcUrl, hurl, hv]⟩
      | str s => exact ⟨.str s, rpcWeight kvs, by simp [formatRpcUrl, hurl]⟩
      | int i => exact ⟨.int i, rpcWeight kvs, by simp [formatRpcUrl, hurl]⟩
      | bool b => exact ⟨.bool b, rpcWeight kvs, by simp [formatRpcUrl, hurl]⟩
      | null => exact ⟨.null, rpcWeight kvs, by simp [formatRpcUrl, hurl]⟩
      | arr a => exact ⟨.arr a, rpcWeight kvs, by simp [formatRpcUrl, hurl]⟩
  | str s => exact ⟨.str s, .int 100, rfl⟩
  | int i => exact ⟨.int i, .int 100, rfl⟩
  | bool b => exact ⟨.bool b, .int 100, rfl⟩
  | null => exact ⟨.null, .int 100, rfl⟩
  | arr a => exact ⟨.arr a, .int 100, rfl⟩

/-- C2: each RPC-endpoint shape of a relational network row — a plain
string, a flat object with a url field (weight present or absent), or a
nested url/value object (weight present or absent) — normalizes to the
canonical shape with weight defaulting to 100 when absent; and
normalization is idempotent: normalizing an already-normalized endpoint
yields the same value. -/
theorem c2_rpc_normalization_canonical_idempotent (s u : String) (w : Int) (v x : JVal) :
    formatRpcUrl (.str s) = canonicalRpc (.str s) (.int 100) ∧
    formatRpcUrl (.obj [("url", .str u)]) = canonicalRpc (.str u) (.int 100) ∧
    formatRpcUrl (.obj [("url", .str u), ("weight", .int w)]) =
      canonicalRpc (.str u) (.int w) ∧
    formatRpcUrl (.obj [("url", .obj [("value", v)])]) = canonicalRpc v (.int 100) ∧
    formatRpcUrl (.obj [("url", .obj [("value", v)]), ("weight", .int w)]) =
      canonicalRpc v (.int w) ∧
    formatRpcUrl (formatRpcUrl x) = formatRpcUrl x := by
  refine ⟨rfl, rfl, rfl, rfl, rfl, ?_⟩
  obtain ⟨v2, w2, h⟩ := formatRpcUrl_shape x
  rw [h, formatRpcUrl_canonical]

/-! ## Minimal-monitor synthesis lemmas -/

lemma typeSlugs_isEmpty_iff (networks : List (String × JVal)) (t : String) :
    (typeSlugs networks t).isEmpty = true ↔
      networks.any (fun p => isNetworkType p.2 t) = false := by
  rw [List.isEmpty_iff, typeSlugs, List.map_eq_nil_iff, List.filter_eq_nil_iff,
    List.any_eq_false]

lemma typeSlugs_isEmpty_eq (networks : List (String × JVal)) (t : String) :
    (typeSlugs networks t).isEmpty =
      !networks.any (fun p => isNetworkType p.2 t) := by
  cases hval : networks.any (fun p => isNetworkType p.2 t) with
  | false => simpa using (typeSlugs_isEmpty_iff networks t).mpr hval
  | true =>
    simp only [Bool.not_true]
    cases hv2 : (typeSlugs networks t).isEmpty with
    | false => rfl
    | true =>
      have := (typeSlugs_isEmpty_iff networks t).mp hv2
      rw [this] at hval
      simp at hval

/-- C3 counterexample: with one EVM network and one network of the
(unhandled) type Solana, two distinct network types are present but the
synthesizer fabricates only one default monitor, refuting one minimal
default monitor per distinct network type present. -/
theorem c3_counterexample_unhandled_network_type :
    (distinctNetworkTypes demoMixedNetworks).length = 2 ∧
    (createMinimalMonitorConfigs demoMixedNetworks).length = 1 :=
  ⟨rfl, rfl⟩

/-- C3 amended: synthesizing with zero supplied monitors fabricates exactly
one minimal default monitor per distinct HANDLED network type present (EVM
and Stellar; other network types get none), each watching the conventional
zero/burn address of its chain family, matching only successful
transactions with no expression filter, and carrying an empty trigger
list. -/
theorem c3_default_monitor_per_handled_type (networks : List (String × JVal)) :
    (createMinimalMonitorConfigs networks).length =
      ((if networks.any (fun p => isNetworkType p.2 "EVM") then 1 else 0) +
       (if networks.any (fun p => isNetworkType p.2 "Stellar") then 1 else 0)) ∧
    (∀ nm mon, (nm, mon) ∈ createMinimalMonitorConfigs networks →
      mon.get "triggers" = some (.arr []) ∧
      mon.get "trigger_conditions" = some (.arr []) ∧
      mon.get "match_conditions" = some successOnlyMatchConditions ∧
      ((nm = "blockwatcher_evm" ∧
          mon = evmMinimalMonitor (typeSlugs networks "EVM") ∧
          mon.get "addresses" =
            some (.arr [.obj [("address", .str evmZeroAddress)]])) ∨
       (nm = "blockwatcher_stellar" ∧
          mon = stellarMinimalMonitor (typeSlugs networks "Stellar") ∧
          mon.get "addresses" =
            some (.arr [.obj [("address", .str stellarZeroAddress)]])))) := by
  have hE := typeSlugs_isEmpty_eq networks "EVM"
  have hS := typeSlugs_isEmpty_eq networks "Stellar"
  cases hEa : networks.any (fun p => isNetworkType p.2 "EVM") with
  | false =>
    rw [hEa, Bool.not_false] at hE
    cases hSa : networks.any (fun p => isNetworkType p.2 "Stellar") with
    | false =>
      rw [hSa, Bool.not_false] at hS
      refine ⟨by simp [createMinimalMonitorConfigs, hE, hS], ?_⟩
      intro nm mon hmem
      simp [createMinimalMonitorConfigs, hE, hS] at hmem
    | true =>
      rw [hSa, Bool.not_true] at hS
      refine ⟨by simp [createMinimalMonitorConfigs, hE, hS], ?_⟩
      intro nm mon hmem
      simp [createMinimalMonitorConfigs, hE, hS] at hmem
      obtain ⟨h1, h2⟩ := hmem
      subst h1
      subst h2
      exact ⟨rfl, rfl, rfl, Or.inr ⟨rfl, rfl, rfl⟩⟩
  | true =>
    rw [hEa, Bool.not_true] at hE
    cases hSa : networks.any (fun p => isNetworkType p.2 "Stellar") with
    | false =>
      rw [hSa, Bool.not_false] at hS
      refine ⟨by simp [createMinimalMonitorConfigs, hE, hS], ?_⟩
      intro nm mon hmem
      simp [createMinimalMonitorConfigs, hE, hS] at hmem
      obtain ⟨h1, h2⟩ := hmem
      subst h1
      subst h2
      exact ⟨rfl, rfl, rfl, Or.inl ⟨rfl, rfl, rfl⟩⟩
    | true =>
      rw [hSa, Bool.not_true] at hS
      refine ⟨by simp [createMinimalMonitorConfigs, hE, hS], ?_⟩
      intro nm mon hmem
      simp [createMinimalMonitorConfigs, hE, hS] at hmem
      rcases hmem with ⟨h1, h2⟩ | ⟨h1, h2⟩
      · subst h1
        subst h2
        exact ⟨rfl, rfl, rfl, Or.inl ⟨rfl, rfl, rfl⟩⟩
      · subst h1
        subst h2
        exact ⟨rfl, rfl, rfl, Or.inr ⟨rfl, rfl, rfl⟩⟩

/-- Witness for C3: the default EVM monitor synthesized for a one-network
EVM input has an empty trigger list and empty trigger conditions. -/
theorem c3_default_monitor_per_handled_type_witness :
    (evmMinimalMonitor (typeSlugs demoEvmNetworks "EVM")).get "triggers" =
      some (.arr []) ∧
    (evmMinimalMonitor (typeSlugs demoEvmNetworks "EVM")).get "trigger_conditions" =
      some (.arr []) := by
  have h := (c3_default_monitor_per_handled_type demoEvmNetworks).2
      "blockwatcher_evm" (evmMinimalMonitor (typeSlugs demoEvmNetworks "EVM"))
      (by
        show ("blockwatcher_evm", evmMinimalMonitor (typeSlugs demoEvmNetworks "EVM")) ∈
          ([("blockwatcher_evm", evmMinimalMonitor (typeSlugs demoEvmNetworks "EVM"))] :
            List (String × JVal))
        exact List.mem_singleton.mpr rfl)
  exact ⟨h.1, h.2.1⟩

/-! ## Shutdown and supervision theorems -/

/-- C4: when a graceful stop is requested of a running child, a
graceful-termination request is sent and a 10-second wait starts: a child
exiting within the timeout ends in Stopped with no forced kill (clean exit
reported); a child outliving the timeout is forcibly killed and ends in
Killed (forced exit reported). -/
theorem c4_graceful_stop_vs_timeout_kill (c : ChildProcess)
    (stats : List (String × NetworkStats)) :
    shutdownTimeoutSecs = 10 ∧
    (c.termDelaySecs ≤ shutdownTimeoutSecs →
      (shutdownRun (some c) stats).finalState = RunState.Stopped ∧
      (shutdownRun (some c) stats).forcedKill = false) ∧
    (shutdownTimeoutSecs < c.termDelaySecs →
      (shutdownRun (some c) stats).finalState = RunState.Killed ∧
      (shutdownRun (some c) stats).forcedKill = true) := by
  refine ⟨rfl, ?_, ?_⟩
  · intro h
    simp [shutdownRun, h]
  · intro h
    have h2 : ¬ c.termDelaySecs ≤ shutdownTimeoutSecs := not_le.mpr h
    simp [shutdownRun, h2]

/-- Witness for C4: a child exiting 3 s after the stop request ends
Stopped; one needing 25 s is Killed. -/
theorem c4_graceful_stop_vs_timeout_kill_witness :
    (shutdownRun (some { termDelaySecs := 3, exitCode := 0 }) []).finalState =
      RunState.Stopped ∧
    (shutdownRun (some { termDelaySecs := 25, exitCode := 0 }) []).finalState =
      RunState.Killed :=
  ⟨((c4_graceful_stop_vs_timeout_kill { termDelaySecs := 3, exitCode := 0 } []).2.1
      (by decide)).1,
   ((c4_graceful_stop_vs_timeout_kill { termDelaySecs := 25, exitCode := 0 } []).2.2
      (by decide)).1⟩

/-- C5 counterexample: a child exiting on its own with the non-zero code 3
still yields orchestrator exit status 0 — `run` never reads the code
`wait()` returned and `main` falls through — refuting the claim that a
non-zero child exit code is propagated as a nonzero termination status. -/
theorem c5_counterexample_exit_code_not_propagated :
    (3 : Int) ≠ 0 ∧
    (runSupervision (RunEnding.childExited 3) []).orchestratorExit = 0 :=
  ⟨by decide, rfl⟩

/-- C5 amended: when the child exits on its own, its exit code is observed
by `wait()` but then discarded: the Orchestrator terminates with status 0
whatever the child code was, and `shutdown` is not invoked; the
Orchestrator exits nonzero (1) only when supervision raises an unexpected
exception, and exits 0 on a KeyboardInterrupt. -/
theorem c5_child_exit_code_discarded (code : Int) (child : Option ChildProcess)
    (stats : List (String × NetworkStats)) :
    (runSupervision (.childExited code) stats).childExitCode = some code ∧
    (runSupervision (.childExited code) stats).orchestratorExit = 0 ∧
    (runSupervision (.childExited code) stats).shutdownCalled = false ∧
    (runSupervision (.crashed child) stats).orchestratorExit = 1 ∧
    (runSupervision (.interrupted child) stats).orchestratorExit = 0 :=
  ⟨rfl, rfl, rfl, rfl, rfl⟩

/-- C6 counterexample: a run that ends with a clean child exit, with
non-empty collected statistics, does not print the final statistics
report — `shutdown` (the only place that prints it) is never called on
that path — refuting that the report is printed regardless of how the run
ends. -/
theorem c6_counterexample_clean_exit_no_report :
    ([("ethereum", demoStats)] : List (String × NetworkStats)) ≠ [] ∧
    (runSupervision (RunEnding.childExited 0) [("ethereum", demoStats)]).reportPrinted =
      false :=
  ⟨by simp, rfl⟩

/-- C6 amended: the final statistics report is printed exactly on the paths
that invoke `shutdown` — interrupt and crash — whenever statistics were
collected; a run ending in a clean child exit never prints it. -/
theorem c6_report_only_on_shutdown_paths (child : Option ChildProcess)
    (stats : List (String × NetworkStats)) (code : Int) (h : stats ≠ []) :
    (runSupervision (.interrupted child) stats).reportPrinted = true ∧
    (runSupervision (.crashed child) stats).reportPrinted = true ∧
    (runSupervision (.childExited code) stats).reportPrinted = false := by
  have hne : stats.isEmpty = false := list_ne_nil_isEmpty stats h
  have hrep : (shutdownRun child stats).reportPrinted = true := by
    cases child with
    | none => simp [shutdownRun, hne]
    | some c =>
      by_cases hd : c.termDelaySecs ≤ shutdownTimeoutSecs
      · simp [shutdownRun, hd, hne]
      · simp [shutdownRun, hd, hne]
  exact ⟨by simp [runSupervision, hrep], by simp [runSupervision, hrep], rfl⟩

/-- Witness for C6: an interrupted run with one collected record prints
the report. -/
theorem c6_report_only_on_shutdown_paths_witness :
    (runSupervision (RunEnding.interrupted none) [("eth", demoStats)]).reportPrinted =
      true :=
  (c6_report_only_on_shutdown_paths none [("eth", demoStats)] 0 (by simp)).1

/-! ## Network-loading lemmas -/

lemma hasKey_nil {α : Type} (k : String) : hasKey ([] : List (String × α)) k = false := rfl

lemma db_fold_hasKey (sb : Bool) (rows : List NetworkRow)
    (acc : List (String × JVal)) (slug : String) :
    hasKey (rows.foldl (dbInsertStep sb) acc) slug = true ↔
      (∃ r ∈ rows, r.slug = slug) ∨ hasKey acc slug = true := by
  induction rows generalizing acc with
  | nil => simp
  | cons r rest ih =>
    rw [List.foldl_cons, ih]
    constructor
    · rintro (⟨r2, hr2, hs⟩ | hacc)
      · exact Or.inl ⟨r2, List.mem_cons_of_mem _ hr2, hs⟩
      · rcases (hasKey_update _ _ _ _).mp hacc with heq | hk
        · exact Or.inl ⟨r, List.mem_cons_self _ _, heq.symm⟩
        · exact Or.inr hk
    · rintro (⟨r2, hr2, hs⟩ | hacc)
      · rcases List.mem_cons.mp hr2 with heq | hmem
        · subst heq
          exact Or.inr ((hasKey_update _ _ _ _).mpr (Or.inl hs.symm))
        · exact Or.inl ⟨r2, hmem, hs⟩
      · exact Or.inr ((hasKey_update _ _ _ _).mpr (Or.inr hacc))

lemma file_fold_hasKey (files : List NetworkFile) (acc : List (String × JVal))
    (slug : String) :
    hasKey (files.foldl (fileInsertStep []) acc) slug = true ↔
      (∃ f ∈ files, ∃ cfg, f.parsed = some cfg ∧ fileSlug f.stem cfg = slug) ∨
        hasKey acc slug = true := by
  induction files generalizing acc with
  | nil => simp
  | cons f rest ih =>
    rw [List.foldl_cons, ih]
    cases hp : f.parsed with
    | none =>
      have hstep : fileInsertStep [] acc f = acc := by
        simp [fileInsertStep, hp]
      rw [hstep]
      constructor
      · rintro (⟨f2, h2, cfg2, hcfg2, hs⟩ | hacc)
        · exact Or.inl ⟨f2, List.mem_cons_of_mem _ h2, cfg2, hcfg2, hs⟩
        · exact Or.inr hacc
      · rintro (⟨f2, h2, cfg2, hcfg2, hs⟩ | hacc)
        · rcases List.mem_cons.mp h2 with heq | hmem
          · subst heq
            rw [hp] at hcfg2
            cases hcfg2
          · exact Or.inl ⟨f2, hmem, cfg2, hcfg2, hs⟩
        · exact Or.inr hacc
    | some cfg =>
      have hstep : fileInsertStep [] acc f = alistUpdate acc (fileSlug f.stem cfg) cfg := by
        simp [fileInsertStep, hp]
      rw [hstep]
      constructor
      · rintro (⟨f2, h2, cfg2, hcfg2, hs⟩ | hacc)
        · exact Or.inl ⟨f2, List.mem_cons_of_mem _ h2, cfg2, hcfg2, hs⟩
        · rcases (hasKey_update _ _ _ _).mp hacc with heq | hk
          · exact Or.inl ⟨f, List.mem_cons_self _ _, cfg, hp, heq.symm⟩
          · exact Or.inr hk
      · rintro (⟨f2, h2, cfg2, hcfg2, hs⟩ | hacc)
        · rcases List.mem_cons.mp h2 with heq | hmem
          · subst heq
            rw [hp] at hcfg2
            injection hcfg2 with hcfg2
            subst hcfg2
            exact Or.inr ((hasKey_update _ _ _ _).mpr (Or.inl hs.symm))
          · exact Or.inl ⟨f2, hmem, cfg2, hcfg2, hs⟩
        · exact Or.inr ((hasKey_update _ _ _ _).mpr (Or.inr hacc))

lemma file_fold_skip (sel : List String) (hsel : sel ≠ []) (files : List NetworkFile)
    (acc : List (String × JVal))
    (h : ∀ f ∈ files, ∀ cfg, f.parsed = some cfg → fileSlug f.stem cfg ∉ sel) :
    files.foldl (fileInsertStep sel) acc = acc := by
  induction files generalizing acc with
  | nil => rfl
  | cons f rest ih =>
    rw [List.foldl_cons]
    have hstep : fileInsertStep sel acc f = acc := by
      cases hp : f.parsed with
      | none => simp [fileInsertStep, hp]
      | some cfg =>
        have hns : fileSlug f.stem cfg ∉ sel :=
          h f (List.mem_cons_self _ _) cfg hp
        simp [fileInsertStep, hp, list_ne_nil_isEmpty sel hsel, hns]
    rw [hstep]
    exact ih _ (fun f2 h2 => h f2 (List.mem_cons_of_mem _ h2))

lemma file_fold_unparsed (sel : List String) (files : List NetworkFile)
    (acc : List (String × JVal)) (h : ∀ f ∈ files, f.parsed = none) :
    files.foldl (fileInsertStep sel) acc = acc := by
  induction files generalizing acc with
  | nil => rfl
  | cons f rest ih =>
    rw [List.foldl_cons]
    have hstep : fileInsertStep sel acc f = acc := by
      simp [fileInsertStep, h f (List.mem_cons_self _ _)]
    rw [hstep]
    exact ih _ (fun f2 h2 => h f2 (List.mem_cons_of_mem _ h2))

/-- C7: for either backend, load fails (the fatal exit the contract calls
NotFoundError) when the requested selection is non-empty and none of the
requested slugs exist among the active records, or when no networks exist
at all; and with an empty selection it returns a mapping whose keys are
exactly the slugs of the active records. -/
theorem c7_load_not_found_and_empty_selection (tenant : String) (sel : List String)
    (sb : Bool) (table : List NetworkRow) (files : List NetworkFile) :
    (sel ≠ [] → (∀ r ∈ table, isActiveRow tenant r = true → r.slug ∉ sel) →
      loadNetworkConfigsFromDb tenant sel sb (some table) =
        .error (.processExit 1)) ∧
    ((∀ r ∈ table, isActiveRow tenant r = false) →
      loadNetworkConfigsFromDb tenant sel sb (some table) =
        .error (.processExit 1)) ∧
    (∀ m, loadNetworkConfigsFromDb tenant [] sb (some table) = .ok m →
      ∀ slug, hasKey m slug = true ↔
        ∃ r ∈ table, isActiveRow tenant r = true ∧ r.slug = slug) ∧
    (sel ≠ [] → (∀ f ∈ files, ∀ cfg, f.parsed = some cfg →
        fileSlug f.stem cfg ∉ sel) →
      loadNetworkConfigsFromFiles sel files = .error (.processExit 1)) ∧
    ((∀ f ∈ files, f.parsed = none) →
      loadNetworkConfigsFromFiles sel files = .error (.processExit 1)) ∧
    (∀ m, loadNetworkConfigsFromFiles [] files = .ok m →
      ∀ slug, hasKey m slug = true ↔
        ∃ f ∈ files, ∃ cfg, f.parsed = some cfg ∧ fileSlug f.stem cfg = slug) := by
  refine ⟨?_, ?_, ?_, ?_, ?_, ?_⟩
  · intro hsel h
    have hfilter : table.filter (rowMatchesQuery tenant sel) = [] := by
      apply List.filter_eq_nil_iff.mpr
      intro r hr
      cases hact : isActiveRow tenant r with
      | false => simp [rowMatchesQuery, hact]
      | true =>
        have hns := h r hr hact
        simp [rowMatchesQuery, hact, list_ne_nil_isEmpty sel hsel, hns]
    simp [loadNetworkConfigsFromDb, hfilter]
  · intro h
    have hfilter : table.filter (rowMatchesQuery tenant sel) = [] := by
      apply List.filter_eq_nil_iff.mpr
      intro r hr
      simp [rowMatchesQuery, h r hr]
    simp [loadNetworkConfigsFromDb, hfilter]
  · intro m hm slug
    simp only [loadNetworkConfigsFromDb] at hm
    split at hm
    · cases hm
    · rename_i hne
      injection hm with hm
      subst hm
      rw [db_fold_hasKey]
      simp only [hasKey_nil, Bool.false_eq_true, or_false]
      constructor
      · rintro ⟨r, hr, hs⟩
        have hmem := List.mem_filter.mp hr
        have hq : isActiveRow tenant r = true := by
          have := hmem.2
          simp [rowMatchesQuery] at this
          exact this
        exact ⟨r, hmem.1, hq, hs⟩
      · rintro ⟨r, hr, hact, hs⟩
        refine ⟨r, List.mem_filter.mpr ⟨hr, ?_⟩, hs⟩
        simp [rowMatchesQuery, hact]
  · intro hsel h
    have hfold := file_fold_skip sel hsel files [] h
    simp [loadNetworkConfigsFromFiles, hfold]
  · intro h
    have hfold := file_fold_unparsed sel files [] h
    simp [loadNetworkConfigsFromFiles, hfold]
  · intro m hm slug
    simp only [loadNetworkConfigsFromFiles] at hm
    split at hm
    · cases hm
    · injection hm with hm
      subst hm
      rw [file_fold_hasKey]
      simp only [hasKey_nil, Bool.false_eq_true, or_false]

/-- Witness for C7: all six contract clauses evaluated on one active row,
one inactive row, one parseable file and one unparseable file. -/
theorem c7_load_not_found_and_empty_selection_witness :
    (loadNetworkConfigsFromDb "t" ["missing"] false (some [demoNetworkRow]) =
      .error (.processExit 1)) ∧
    (loadNetworkConfigsFromDb "t" [] false (some [demoInactiveRow]) =
      .error (.processExit 1)) ∧
    (hasKey [("eth", rowToConfig false demoNetworkRow)] "eth" = true ↔
      ∃ r ∈ [demoNetworkRow], isActiveRow "t" r = true ∧ r.slug = "eth") ∧
    (loadNetworkConfigsFromFiles ["missing"] [demoNetworkFile] =
      .error (.processExit 1)) ∧
    (loadNetworkConfigsFromFiles [] [demoBadFile] = .error (.processExit 1)) ∧
    (hasKey [("eth", JVal.obj [("slug", JVal.str "eth")])] "eth" = true ↔
      ∃ f ∈ [demoNetworkFile], ∃ cfg, f.parsed = some cfg ∧
        fileSlug f.stem cfg = "eth") := by
  have h := c7_load_not_found_and_empty_selection "t" ["missing"] false
      [demoNetworkRow] [demoNetworkFile]
  have h2 := c7_load_not_found_and_empty_selection "t" [] false
      [demoInactiveRow] [demoBadFile]
  refine ⟨?_, ?_, ?_, ?_, ?_, ?_⟩
  · exact h.1 (by simp) (by decide)
  · exact h2.2.1 (by decide)
  · exact h.2.2.1 [("eth", rowToConfig false demoNetworkRow)] rfl "eth"
  · refine h.2.2.2.1 (by simp) ?_
    intro f hf cfg hcfg
    simp only [List.mem_singleton] at hf
    subst hf
    simp only [demoNetworkFile] at hcfg
    injection hcfg with hcfg
    subst hcfg
    decide
  · refine h2.2.2.2.2.1 ?_
    intro f hf
    simp only [List.mem_singleton] at hf
    subst hf
    rfl
  · exact h.2.2.2.2.2 [("eth", JVal.obj [("slug", JVal.str "eth")])] rfl "eth"

/-! ## Backend-failure, store_blocks and trigger-merge theorems -/

/-- C8: a relational-backend failure (connect or query error) during
network loading is a fatal process exit 1 — whatever the file backend
holds, it is never consulted — whereas the same failure inside
`load_monitor_and_trigger_configs_from_db` prints the failure report and
returns `([], [])` to the caller instead of terminating the process. -/
theorem c8_db_failure_fatal_vs_reported (tenant : String) (sel : List String)
    (sb : Bool) (files : List NetworkFile) :
    loadNetworkConfigs true tenant sel sb none files = .error (.processExit 1) ∧
    loadMonitorAndTriggerConfigsFromDb tenant none = (([], []), true) :=
  ⟨rfl, rfl⟩

/-- C9: synthesis clones each network record, sets store_blocks to true
exactly when the caller-requested override is set, leaves every other
field unchanged (with no override the clone is the record itself), never
downgrades a store_blocks true of the record itself; and the database loader
computes store_blocks as the disjunction of the row flag and the
override. -/
theorem c9_store_blocks_override_frame (sb : Bool) (kvs : List (String × JVal))
    (r : NetworkRow) :
    (sb = true →
      (cloneNetworkConfig sb (.obj kvs)).get "store_blocks" = some (.bool true)) ∧
    (∀ k, k ≠ "store_blocks" →
      (cloneNetworkConfig sb (.obj kvs)).get k = (JVal.obj kvs).get k) ∧
    (sb = false → cloneNetworkConfig sb (.obj kvs) = .obj kvs) ∧
    ((JVal.obj kvs).get "store_blocks" = some (.bool true) →
      (cloneNetworkConfig sb (.obj kvs)).get "store_blocks" = some (.bool true)) ∧
    (rowToConfig sb r).get "store_blocks" = some (.bool (r.store_blocks || sb)) := by
  refine ⟨?_, ?_, ?_, ?_, ?_⟩
  · intro h
    subst h
    simp [cloneNetworkConfig, setKey, JVal.get, alistGet_update_self]
  · intro k hk
    cases sb with
    | false => simp [cloneNetworkConfig]
    | true => simp [cloneNetworkConfig, setKey, JVal.get, alistGet_update_ne _ _ _ _ hk]
  · intro h
    subst h
    rfl
  · intro h
    cases sb with
    | false => simpa [cloneNetworkConfig] using h
    | true => simp [cloneNetworkConfig, setKey, JVal.get, alistGet_update_self]
  · rfl

/-- Witness for C9: overriding a record whose own flag is false sets
store_blocks true and leaves the slug untouched. -/
theorem c9_store_blocks_override_frame_witness :
    (cloneNetworkConfig true
        (.obj [("slug", .str "eth"), ("store_blocks", .bool false)])).get
      "store_blocks" = some (.bool true) ∧
    (cloneNetworkConfig true
        (.obj [("slug", .str "eth"), ("store_blocks", .bool false)])).get
      "slug" = some (.str "eth") := by
  have h := c9_store_blocks_override_frame true
      [("slug", .str "eth"), ("store_blocks", .bool false)] demoNetworkRow
  refine ⟨h.1 rfl, ?_⟩
  rw [h.2.1 "slug" (by decide)]
  rfl

/-- C10: a trigger row with no matching type-specific detail record (or a
trigger_type other than email/webhook) stays a flat id/name/slug/type
record rather than a slug-keyed definition, and merging it into the single
trigger file inserts the keys id, name, slug and type as top-level entries
of the trigger mapping, with no entry keyed by the slug of the trigger. -/
theorem c10_unresolved_trigger_flat_merge (r : TriggerRow)
    (emails : List EmailTriggerRow) (webhooks : List WebhookTriggerRow)
    (h : (r.trigger_type ≠ "email" ∧ r.trigger_type ≠ "webhook") ∨
         (r.trigger_type = "email" ∧ findEmailDetail emails r.id = none) ∨
         (r.trigger_type = "webhook" ∧ findWebhookDetail webhooks r.id = none))
    (hslug : r.slug ≠ "id" ∧ r.slug ≠ "name" ∧ r.slug ≠ "slug" ∧ r.slug ≠ "type") :
    resolveTriggerConfig r emails webhooks = flatTriggerRecord r ∧
    mergeTriggers [resolveTriggerConfig r emails webhooks] =
      [("id", .str r.id), ("name", .str r.name), ("slug", .str r.slug),
       ("type", .str r.trigger_type)] ∧
    alistGet (mergeTriggers [resolveTriggerConfig r emails webhooks]) r.slug = none := by
  have hflat : resolveTriggerConfig r emails webhooks = flatTriggerRecord r := by
    rcases h with ⟨h1, h2⟩ | ⟨h1, h2⟩ | ⟨h1, h2⟩
    · simp [resolveTriggerConfig, h1, h2]
    · simp [resolveTriggerConfig, h1, h2]
    · simp [resolveTriggerConfig, h1, h2]
  have hmerge : mergeTriggers [flatTriggerRecord r] =
      [("id", .str r.id), ("name", .str r.name), ("slug", .str r.slug),
       ("type", .str r.trigger_type)] := rfl
  obtain ⟨h1, h2, h3, h4⟩ := hslug
  refine ⟨hflat, by rw [hflat, hmerge], ?_⟩
  rw [hflat, hmerge]
  simp [alistGet, Ne.symm h1, Ne.symm h2, Ne.symm h3, Ne.symm h4]

/-- Witness for C10: a resolved trigger of type slack (no detail table)
stays flat and the merged trigger file has no entry under its slug. -/
theorem c10_unresolved_trigger_flat_merge_witness :
    resolveTriggerConfig demoTriggerRow [] [] = flatTriggerRecord demoTriggerRow ∧
    alistGet (mergeTriggers [resolveTriggerConfig demoTriggerRow [] []])
      "my-trigger" = none := by
  have h := c10_unresolved_trigger_flat_merge demoTriggerRow [] []
      (Or.inl ⟨by decide, by decide⟩)
      ⟨by decide, by decide, by decide, by decide⟩
  exact ⟨h.1, h.2.2⟩

end BlockwatcherRunner
